import Mathlib

/-!
# Verification of the lessonCraftAi RAG / lesson-plan generation core

Shallow embedding of `backend/app/ai_services.py` and `backend/app/chat.py`.

Conventions of the embedding:
* Python `str` values that are scanned character by character are modelled as
  `List Char`; strings used only as opaque tokens stay `String`.
* Python `float` is modelled as `ℝ` (the code's numerics contain a square
  root, so the similarity functions are `noncomputable`).
* MongoDB collections are lists of records; `ObjectId`s are `Nat`.
* Calls to external services (OpenAI embeddings, the Gemini chat model,
  file-system text extraction) are stubbed by explicit function/value
  parameters; an `Except String String` models one model invocation that
  either returns generated text (`ok`) or raises (`error`).
* A Python function that ends in a bare `return` is modelled as returning
  `none : Option Nat`, so "returns no value / returns None" is observable.
-/

/-! ## Chunker (`ai_services.chunk_text`, lines 521-548) -/

/-- `text[i] in '.!?'` — the sentence-terminal characters of `chunk_text`. -/
def sentenceTerminal (c : Char) : Bool :=
  c == '.' || c == '!' || c == '?'

/-- The characters Python's `str.strip()` removes (ASCII whitespace). -/
def pyWhitespace (c : Char) : Bool :=
  c == ' ' || c == '\t' || c == '\n' || c == '\r' || c == '\x0b' || c == '\x0c'

/-- Strip characters satisfying `p` from both ends (Python `str.strip(chars)`). -/
def stripBy (p : Char → Bool) (l : List Char) : List Char :=
  ((l.dropWhile p).reverse.dropWhile p).reverse

/-- Python `str.strip()` with no argument: strip whitespace from both ends. -/
def pyStrip (l : List Char) : List Char :=
  stripBy pyWhitespace l

/-- Python slice `text[a:b]` (for the non-negative indices the chunker uses). -/
def pySlice (text : List Char) (a b : Nat) : List Char :=
  (text.take b).drop a

/-- The loop `for i in range(i, i - steps, -1): if text[i] in '.!?': ...` —
scan indices `i, i-1, …, i-steps+1` downward; at the first (largest) index
holding a sentence terminal return that index plus one, else `none`. -/
def scanBackFrom (text : List Char) : Nat → Nat → Option Nat
  | _, 0 => none
  | i, steps + 1 =>
    if sentenceTerminal (text.getD i ' ') then some (i + 1)
    else scanBackFrom text (i - 1) steps

/-- `for i in range(e, bound, -1)` in `chunk_text`: the scanned indices are
`e, e-1, …, bound+1` (none when `e ≤ bound`). -/
def scanBack (text : List Char) (bound e : Nat) : Option Nat :=
  scanBackFrom text e (e - bound)

/-- Lines 530-538 of `chunk_text`: the end of the window that starts at
`start`.  `end = start + chunk_size`; if `end < len(text)`, scan backward
from `end` down to (exclusive) `max(start + chunk_size // 2, end - 100)`
for a sentence terminal and, when found at `i`, set `end = i + 1`.
(Python's `end - 100` can be negative, in which case `max` picks the other
bound; `Nat` truncation at 0 yields the same maximum.) -/
def windowEnd (text : List Char) (chunk_size start : Nat) : Nat :=
  let e := start + chunk_size
  if e < text.length then
    match scanBack text (max (start + chunk_size / 2) (e - 100)) e with
    | some j => j
    | none => e
  else e

/-- The `while start < len(text)` loop of `chunk_text` (lines 529-546).
`fuel` bounds the number of iterations; every call below supplies
`text.length + 1`, which is ample because with the parameters in use each
iteration advances `start`. -/
def chunkLoop (text : List Char) (chunk_size overlap : Nat) : Nat → Nat → List (List Char)
  | _, 0 => []
  | start, fuel + 1 =>
    if start < text.length then
      let e := windowEnd text chunk_size start
      let chunk := pyStrip (pySlice text start e)
      let tail :=
        if text.length ≤ e - overlap then []
        else chunkLoop text chunk_size overlap (e - overlap) fuel
      if chunk.isEmpty then tail else chunk :: tail
    else []

/-- `ai_services.chunk_text(text, chunk_size=1000, overlap=200)`:
`if len(text) <= chunk_size: return [text]`, else the scanning loop. -/
def chunk_text (text : List Char) (chunk_size overlap : Nat) : List (List Char) :=
  if text.length ≤ chunk_size then [text]
  else chunkLoop text chunk_size overlap 0 (text.length + 1)

/-! ## Keyword routing (`ai_services.analyze_request`, lines 101-113) -/

/-- Does `kw` occur as a contiguous substring of `l` (Python `kw in l`)? -/
def containsSub : List Char → List Char → Bool
  | l, kw =>
    kw.isPrefixOf l ||
      match l with
      | [] => false
      | _ :: t => containsSub t kw

/-- Python `s.lower()` on the characters of `s`. -/
def lowerChars (s : String) : List Char :=
  s.toList.map Char.toLower

/-- `any(keyword in user_input_lower for keyword in keywords)`. -/
def contains_any (keywords : List String) (lowered : List Char) : Bool :=
  keywords.any fun kw => containsSub lowered kw.toList

/-- The outline-intent keywords of `analyze_request` (line 107), also used
verbatim by `chat.send_message` (lines 72-73). -/
def outline_keywords : List String :=
  ["outline", "structure", "plan", "create", "generate", "start"]

/-- The details-intent keywords of `analyze_request` (line 110), also used
verbatim by `chat.send_message` (lines 99-100). -/
def details_keywords : List String :=
  ["details", "detailed", "content", "expand", "elaborate"]

/-- `analyze_request(user_input, lesson_status)` (lines 101-113). -/
def analyze_request (user_input : String) (lesson_status : String) : String :=
  let user_input_lower := lowerChars user_input
  if lesson_status == "draft" && contains_any outline_keywords user_input_lower then
    "generate_outline"
  else if lesson_status == "outline" && contains_any details_keywords user_input_lower then
    "generate_details"
  else
    "general_chat"

/-- Spec §4.5's routing rule, stated from the spec's own wording ("if
status = draft AND utterance contains any of {…} → generate_outline; else
if status = outline AND utterance contains any of {…} → generate_details;
else → general_chat", evaluated in that order, case-insensitive substring
match) — a second definition kept for comparing the code with the spec. -/
def routing_rule_spec (status : String) (utterance : String) : String :=
  if status == "draft" && contains_any outline_keywords (lowerChars utterance) then
    "generate_outline"
  else if status == "outline" && contains_any details_keywords (lowerChars utterance) then
    "generate_details"
  else
    "general_chat"

/-! ## Data model (`models.py`, mongo collections) -/

/-- A document of the `embeddings` collection (`process_uploaded_file`,
lines 454-467; `metadata` is kept to the field retrieval uses). -/
structure EmbeddingDoc where
  file_id : Nat
  lesson_plan_id : Option Nat
  chunk_text : String
  embedding : List ℝ
  chunk_index : Nat

/-- A document of the `lesson_plans` collection. -/
structure LessonPlanRec where
  id : Nat
  user_id : Nat
  title : String
  subject : String
  age_group : String
  description : String
  status : String
  outline : Option (List String)
  details : Option (List (String × String))

/-- A document of the `messages` collection. -/
structure MessageRec where
  lesson_plan_id : Nat
  content : String
  sender : String

/-- A document of the `files` collection (the field ingestion touches). -/
structure FileRec where
  id : Nat
  processed : Bool

/-- A document of the `users` collection (the fields chat/upload read). -/
structure UserRec where
  id : Nat
  api_keys : List (String × String)

/-- The MongoDB database, as the collections the core touches. -/
structure Db where
  lesson_plans : List LessonPlanRec
  users : List UserRec
  embeddings : List EmbeddingDoc
  messages : List MessageRec
  files : List FileRec

/-! ## LangGraph state and nodes (`ai_services.AIAgent`, lines 71-334)

`LessonPlanState` is a `TypedDict`: every key is present, and `outline` /
`details` are `Optional`, so `state.get("outline", [])` returns the stored
value even when it is `None` — hence `Option` fields here. -/

/-- `LessonPlanState` (lines 23-31); `messages` is never read and dropped. -/
structure WorkflowState where
  lesson_plan_data : LessonPlanRec
  context_docs : List String
  current_step : String
  outline : Option (List String)
  details : Option (List (String × String))
  user_request : String
  response : String

/-- The agent's configuration and the behaviour of its external language
model: `geminiKey` is `user_api_keys.get("gemini")`; `llmOutline` /
`llmDetail section` / `llmChat` are the outcomes of the single
`chain.invoke` calls in the three nodes (`ok` = returned content,
`error` = the invocation raised). -/
structure AgentConfig where
  geminiKey : Option String
  llmOutline : Except String String
  llmDetail : String → Except String String
  llmChat : Except String String

/-- The fixed fallback outline of `generate_outline_node` (lines 180-189)
and of `generate_lesson_outline`'s exception handler (lines 354-363). -/
def default_outline : List String :=
  ["Learning Objectives",
   "Materials and Resources",
   "Introduction and Warm-up",
   "Main Teaching Activity",
   "Practice and Application",
   "Assessment and Evaluation",
   "Conclusion and Wrap-up",
   "Extension Activities"]

/-- The per-line filter of the outline parser (lines 163-169): strip the
line; keep it only when non-empty and starting with a digit, `-` or `•`;
the kept text is everything after the first `.` (stripped) when the line
has a dot, else the line stripped of `-`, space and `•` at both ends. -/
def parse_line (raw : List Char) : Option (List Char) :=
  let line := pyStrip raw
  match line with
  | [] => none
  | c :: _ =>
    if c.isDigit || c == '-' || c == '•' then
      let clean :=
        if line.contains '.' then pyStrip ((line.dropWhile fun x => x != '.').drop 1)
        else pyStrip (stripBy (fun x => x == '-' || x == ' ' || x == '•') line)
      if clean.isEmpty then none else some clean
    else none

/-- Lines 161-169: parse the model response into outline points. -/
def parse_outline (content : String) : List String :=
  (content.splitOn "\n").filterMap fun line => (parse_line line.toList).map List.asString

/-- Lines 173-176 (and, identically, `chat.send_message` lines 92-95):
the chat text listing the generated outline. -/
def outline_response_text (outline : List String) : String :=
  "I've created a comprehensive outline for your lesson plan:\n\n" ++
    String.join ((outline.enumFrom 1).map fun p => toString p.1 ++ ". " ++ p.2 ++ "\n") ++
    "\nWould you like me to generate detailed content for each section?"

/-- `generate_outline_node` (lines 127-197): with a Gemini key, invoke the
model, parse, and keep at most 8 points (`outline[:8]`); a raised invocation
is caught and only `response` is set; without a key, the default outline. -/
def generate_outline_node (cfg : AgentConfig) (st : WorkflowState) : WorkflowState :=
  match cfg.geminiKey with
  | some _ =>
    match cfg.llmOutline with
    | Except.ok content =>
      let outline := parse_outline content
      { st with outline := some (outline.take 8),
                response := outline_response_text (outline.take 8) }
    | Except.error _ =>
      { st with response := "Error generating outline. Please try again." }
  | none =>
    { st with outline := some default_outline,
              response := "I've created a standard lesson plan outline. Please configure your API keys for AI-generated content." }

/-- Line 241: the placeholder detail text used when no model is configured. -/
def details_fallback_text (sec : String) : String :=
  "Detailed content for " ++ sec ++ " would be generated here using the configured AI model."

/-- Line 244: the response after detail generation. -/
def details_success_text : String :=
  "I've generated detailed content for each section of your lesson plan! You can now review and modify any section as needed. The lesson plan is ready for use in your classroom."

/-- The `for section in outline` loop of `generate_details_node`
(lines 230-238): one invocation per section, in order; an invocation that
raises aborts the whole loop (the exception propagates to the node's
`except`). -/
def runDetailLoop (llm : String → Except String String) :
    List String → Except String (List (String × String))
  | [] => Except.ok []
  | s :: rest =>
    match llm s with
    | Except.error e => Except.error e
    | Except.ok content =>
      match runDetailLoop llm rest with
      | Except.error e => Except.error e
      | Except.ok tail => Except.ok ((s, content) :: tail)

/-- `generate_details_node` (lines 199-250): an empty (or `None`) outline
short-circuits with a guidance response and no other state change; else the
per-section loop (or per-section placeholders without a key) sets `details`;
a raised invocation is caught and only `response` is set. -/
def generate_details_node (cfg : AgentConfig) (st : WorkflowState) : WorkflowState :=
  let outline := st.outline.getD []
  if outline.isEmpty then
    { st with response := "I need to create an outline first before generating detailed content." }
  else
    match cfg.geminiKey with
    | some _ =>
      match runDetailLoop cfg.llmDetail outline with
      | Except.ok details =>
        { st with details := some details, response := details_success_text }
      | Except.error _ =>
        { st with response := "Error generating detailed content. Please try again." }
    | none =>
      { st with details := some (outline.map fun s => (s, details_fallback_text s)),
                response := details_success_text }

/-- `general_chat_node` (lines 252-295). -/
def general_chat_node (cfg : AgentConfig) (st : WorkflowState) : WorkflowState :=
  match cfg.geminiKey with
  | some _ =>
    match cfg.llmChat with
    | Except.ok content => { st with response := content }
    | Except.error _ =>
      { st with response := "I'm sorry, I encountered an error while processing your request. Please try again." }
  | none =>
    { st with response := "I'd be happy to help you with your lesson plan! Please configure your AI API keys in your profile to enable full AI assistance." }

/-- `route_request` (lines 116-125): set `current_step` from
`analyze_request` on the utterance and the plan's status. -/
def route_request (st : WorkflowState) : WorkflowState :=
  { st with current_step := analyze_request st.user_request st.lesson_plan_data.status }

/-- `route_to_handler` (lines 310-317). -/
def route_to_handler (step : String) : String :=
  if step == "generate_outline" then "generate_outline"
  else if step == "generate_details" then "generate_details"
  else "general_chat"

/-- `workflow.invoke`: entry point `route_request`, then the conditional
edge to one handler node, then END (lines 297-334). -/
def workflow_invoke (cfg : AgentConfig) (st : WorkflowState) : WorkflowState :=
  let st1 := route_request st
  let handler := route_to_handler st1.current_step
  if handler == "generate_outline" then generate_outline_node cfg st1
  else if handler == "generate_details" then generate_details_node cfg st1
  else general_chat_node cfg st1

/-- `generate_lesson_outline` (lines 336-363).  The initial state has
`outline=None`; the result is `result.get("outline", [])`, and since
`"outline"` is always a key of the `TypedDict` state the default `[]` is
dead: the call returns whatever the node left there, which may be `None`
(modelled `none`) although the signature declares `List[str]`.  The outer
`except` (which would return the default outline) is unreachable because
every node catches its own exceptions. -/
def generate_lesson_outline (cfg : AgentConfig) (lesson : LessonPlanRec)
    (context_docs : List String) : Option (List String) :=
  let initial : WorkflowState :=
    { lesson_plan_data := lesson, context_docs := context_docs,
      current_step := "generate_outline", outline := none, details := none,
      user_request := "create outline", response := "" }
  (workflow_invoke cfg initial).outline

/-- `generate_lesson_details` (lines 365-383), same `result.get` pattern:
the returned value may be `None`. -/
def generate_lesson_details (cfg : AgentConfig) (lesson : LessonPlanRec)
    (outline : List String) (context_docs : List String) :
    Option (List (String × String)) :=
  let initial : WorkflowState :=
    { lesson_plan_data := lesson, context_docs := context_docs,
      current_step := "generate_details", outline := some outline, details := none,
      user_request := "generate details", response := "" }
  (workflow_invoke cfg initial).details

/-- `generate_chat_response` (lines 385-403): `response` is always set by
the nodes, so `result.get("response", …)` returns it. -/
def generate_chat_response (cfg : AgentConfig) (lesson : LessonPlanRec)
    (message : String) (context_docs : List String) : String :=
  let initial : WorkflowState :=
    { lesson_plan_data := lesson, context_docs := context_docs,
      current_step := "", outline := lesson.outline, details := lesson.details,
      user_request := message, response := "" }
  (workflow_invoke cfg initial).response

/-! ## Cosine similarity and retrieval (`ai_services`, lines 550-604)

Vectors are lists of reals (the Python floats); `np.dot` is the zip-product
sum and `np.linalg.norm` the square root of the sum of squares. -/

/-- `np.dot(a, b)` for equal-length 1-d arrays (lists here). -/
def dotList (a b : List ℝ) : ℝ :=
  (List.zipWith (· * ·) a b).sum

/-- Sum of squares, the square of `np.linalg.norm`. -/
def sumSq (a : List ℝ) : ℝ :=
  (a.map fun x => x * x).sum

/-- `cosine_similarity(a, b)` (lines 550-566): `0.0` when either norm is
zero, else the dot product over the product of norms. -/
noncomputable def cosine_similarity (a b : List ℝ) : ℝ :=
  let norm_a := Real.sqrt (sumSq a)
  let norm_b := Real.sqrt (sumSq b)
  if norm_a = 0 ∨ norm_b = 0 then 0
  else dotList a b / (norm_a * norm_b)

/-- Python's `list.sort(reverse=True)` on `(similarity, chunk_text)` tuples
orders by descending tuple comparison: `x` may precede `y` iff `x`'s
similarity is larger, or equal with `x`'s text not smaller (strings compare
lexicographically in both languages). -/
def pairGE (x y : ℝ × String) : Prop :=
  y.1 < x.1 ∨ (x.1 = y.1 ∧ ¬ x.2 < y.2)

noncomputable instance : DecidableRel pairGE :=
  fun _ _ => Classical.propDecidable _

instance : IsTotal (ℝ × String) pairGE where
  total x y := by
    rcases lt_trichotomy x.1 y.1 with h | h | h
    · exact Or.inr (Or.inl h)
    · by_cases hs : x.2 < y.2
      · exact Or.inr (Or.inr ⟨h.symm, lt_asymm hs⟩)
      · exact Or.inl (Or.inr ⟨h, hs⟩)
    · exact Or.inl (Or.inl h)

instance : IsTrans (ℝ × String) pairGE where
  trans x y z hxy hyz := by
    rcases hxy with h1 | ⟨e1, s1⟩
    · rcases hyz with h2 | ⟨e2, _⟩
      · exact Or.inl (h2.trans h1)
      · exact Or.inl (e2 ▸ h1)
    · rcases hyz with h2 | ⟨e2, s2⟩
      · exact Or.inl (e1 ▸ h2)
      · exact Or.inr ⟨e1.trans e2, not_lt.mpr ((not_lt.mp s2).trans (not_lt.mp s1))⟩

/-- Lines 586-599 applied to a fixed query embedding: the `(similarity,
chunk_text)` list over the chunks scoped to the lesson plan, sorted as
`similarities.sort(reverse=True)` sorts it. -/
noncomputable def retrieve_sims (query_embedding : List ℝ) (lesson_plan_id : Nat)
    (docs : List EmbeddingDoc) : List (ℝ × String) :=
  List.insertionSort pairGE
    ((docs.filter fun d => d.lesson_plan_id == some lesson_plan_id).map
      fun d => (cosine_similarity query_embedding d.embedding, d.chunk_text))

/-- `get_relevant_context(lesson_plan_id, query, db, openai_api_key, limit)`
(lines 568-604).  `embedService` stands for
`EmbeddingService(openai_api_key).generate_embedding`; without a key the
function logs and returns `[]` before any retrieval. -/
noncomputable def get_relevant_context (openai_api_key : Option String)
    (embedService : String → List ℝ) (lesson_plan_id : Nat) (query : String)
    (docs : List EmbeddingDoc) (limit : Nat) : List String :=
  match openai_api_key with
  | none => []
  | some _ =>
    let query_embedding := embedService query
    if (docs.filter fun d => d.lesson_plan_id == some lesson_plan_id).isEmpty then []
    else ((retrieve_sims query_embedding lesson_plan_id docs).take limit).map Prod.snd

/-! ## Chat driver (`chat.send_message`, lines 15-152) -/

/-- The request body (`ChatRequest`; attachments are never read downstream
of what is modelled here). -/
structure ChatReq where
  message : String
  lesson_plan_id : Nat

/-- The endpoint's response model (`ChatResponse`). -/
structure ChatResp where
  message : String
  lesson_plan_updated : Bool
  status_changed : Bool
  new_status : Option String

/-- The external services `send_message` touches: the embedding call the
retriever would make, and the three model invocations of the agent. -/
structure ChatEnv where
  embedService : String → List ℝ
  llmOutline : Except String String
  llmDetail : String → Except String String
  llmChat : Except String String

/-- `db.users.find_one({"_id": uid})` followed by `.get("api_keys", {})`. -/
def user_api_keys (db : Db) (uid : Nat) : List (String × String) :=
  ((db.users.find? fun u => u.id == uid).map UserRec.api_keys).getD []

/-- `db.lesson_plans.update_one({"_id": pid}, {"$set": …})`. -/
def updatePlan (db : Db) (pid : Nat) (f : LessonPlanRec → LessonPlanRec) : Db :=
  { db with lesson_plans := db.lesson_plans.map fun p => if p.id == pid then f p else p }

/-- Lines 55-59 of `chat.py`: the context the endpoint retrieves.  The call
is `get_relevant_context(chat_request.lesson_plan_id, chat_request.message,
db)` — the `openai_api_key` parameter keeps its default `None`, so the
embeddings collection is never consulted. -/
noncomputable def chat_retrieved_context (embedService : String → List ℝ)
    (req : ChatReq) (db : Db) : List String :=
  get_relevant_context none embedService req.lesson_plan_id req.message db.embeddings 5

/-- Line 135: the `except` handler's user-facing text. -/
def chat_error_apology : String :=
  "I'm sorry, I encountered an error while processing your request. Please try again or check your API key configuration."

/-- Line 123: the no-outline guidance of the details branch. -/
def no_outline_guidance : String :=
  "I need to create an outline first before generating detailed content. Would you like me to create an outline for your lesson plan?"

/-- `send_message` (`chat.py` lines 15-152).  `Except.error` models a raised
`HTTPException` (carrying its `detail` string); `Except.ok` carries the
`ChatResponse` and the database after the endpoint's writes.

Faithful quirks kept from the source:
* the 404 on a missing plan and the 400 on a missing `gemini` key precede
  everything else (lines 29-41);
* the retrieval call omits the OpenAI key (lines 55-59);
* in the outline branch the plan is updated *before* the response text is
  built, so when `generate_lesson_outline` returns `None` the update has
  already stored `outline=None` / `status="outline"` and the
  `enumerate(outline, 1)` loop raises a `TypeError` that the `except` of
  line 133 turns into the apology text, with the updated/changed flags
  already `True`;
* in the details branch the fixed success text is returned and the plan is
  set to `status="detailed"` even when `generate_lesson_details` returned
  `None` (its own error path). -/
noncomputable def send_message (env : ChatEnv) (db : Db) (current_user : Nat)
    (req : ChatReq) : Except String (ChatResp × Db) :=
  match db.lesson_plans.find? fun p => p.id == req.lesson_plan_id && p.user_id == current_user with
  | none => Except.error "Lesson plan not found"
  | some lesson_plan =>
    let api_keys := user_api_keys db current_user
    match api_keys.lookup "gemini" with
    | none => Except.error "Please configure your AI API keys in your profile before using the chat feature"
    | some gem =>
      let db1 : Db :=
        { db with messages := db.messages ++ [⟨req.lesson_plan_id, req.message, "user"⟩] }
      let context_docs := chat_retrieved_context env.embedService req db1
      let cfg : AgentConfig :=
        { geminiKey := some gem, llmOutline := env.llmOutline,
          llmDetail := env.llmDetail, llmChat := env.llmChat }
      let step : String × Bool × Bool × Option String × Db :=
        if lesson_plan.status == "draft" &&
            contains_any outline_keywords (lowerChars req.message) then
          let outlineOpt := generate_lesson_outline cfg lesson_plan context_docs
          let db2 := updatePlan db1 req.lesson_plan_id
            fun p => { p with outline := outlineOpt, status := "outline" }
          let ai_response :=
            match outlineOpt with
            | some o => outline_response_text o
            | none => chat_error_apology
          (ai_response, true, true, some "outline", db2)
        else if lesson_plan.status == "outline" &&
            contains_any details_keywords (lowerChars req.message) then
          let outline := lesson_plan.outline.getD []
          if outline.isEmpty then
            (no_outline_guidance, false, false, none, db1)
          else
            let detailsOpt := generate_lesson_details cfg lesson_plan outline context_docs
            let db2 := updatePlan db1 req.lesson_plan_id
              fun p => { p with details := detailsOpt, status := "detailed" }
            (details_success_text, true, true, some "detailed", db2)
        else
          (generate_chat_response cfg lesson_plan req.message context_docs, false, false, none, db1)
      match step with
      | (ai_response, updated, changed, newStatus, db2) =>
        let db3 : Db :=
          { db2 with messages := db2.messages ++ [⟨req.lesson_plan_id, ai_response, "ai"⟩] }
        Except.ok (⟨ai_response, updated, changed, newStatus⟩, db3)

/-! ## Ingestion (`ai_services.process_uploaded_file`, lines 423-484) -/

/-- `process_uploaded_file(file_id, file_path, content_type,
lesson_plan_id, db, openai_api_key)`.  `extracted` stands for the result of
`extract_text_from_file(file_path, content_type)`.  Every `return` of the
Python function is bare, so the function always returns `None` — the second
component is always `none` and exists to make that observable.  Empty text
or a missing OpenAI key log and return early, touching nothing (in
particular the file is not marked processed on those paths). -/
def process_uploaded_file (file_id : Nat) (lesson_plan_id : Option Nat)
    (extracted : String) (embedBatch : List String → List (List ℝ))
    (openai_api_key : Option String) (db : Db) : Db × Option Nat :=
  if extracted == "" then (db, none)
  else
    let chunks := (chunk_text extracted.toList 1000 200).map List.asString
    match openai_api_key with
    | none => (db, none)
    | some _ =>
      let embeddings := embedBatch chunks
      let embeddings_docs := (chunks.zip embeddings).enum.map fun p =>
        { file_id := file_id, lesson_plan_id := lesson_plan_id,
          chunk_text := p.2.1, embedding := p.2.2, chunk_index := p.1 : EmbeddingDoc }
      let db1 :=
        if embeddings_docs.isEmpty then db
        else { db with embeddings := db.embeddings ++ embeddings_docs }
      let db2 :=
        { db1 with files := db1.files.map fun f =>
            if f.id == file_id then { f with processed := true } else f }
      (db2, none)

/-! ## Supporting lemmas: the backward sentence scan -/

/-- If no scanned index holds a sentence terminal, the scan returns `none`. -/
theorem scanBackFrom_eq_none (text : List Char) :
    ∀ steps i, steps ≤ i →
      (∀ j, i - steps < j → j ≤ i → sentenceTerminal (text.getD j ' ') = false) →
      scanBackFrom text i steps = none
  | 0, _, _, _ => rfl
  | steps + 1, i, hle, h => by
    have hterm : sentenceTerminal (text.getD i ' ') = false := h i (by omega) le_rfl
    rw [scanBackFrom, hterm]
    simp only [Bool.false_eq_true, if_false]
    exact scanBackFrom_eq_none text steps (i - 1) (by omega)
      (fun j hj1 hj2 => h j (by omega) (by omega))

/-- If index `m` is scanned, holds a terminal, and no later scanned index
does, the scan returns `some (m + 1)`. -/
theorem scanBackFrom_eq_some (text : List Char) :
    ∀ steps i m, steps ≤ i → i - steps < m → m ≤ i →
      sentenceTerminal (text.getD m ' ') = true →
      (∀ j, m < j → j ≤ i → sentenceTerminal (text.getD j ' ') = false) →
      scanBackFrom text i steps = some (m + 1)
  | 0, i, m, _, h1, h2, _, _ => by omega
  | steps + 1, i, m, hle, h1, h2, hm, habove => by
    rcases eq_or_lt_of_le h2 with rfl | hlt
    · rw [scanBackFrom, hm]; simp
    · have hterm : sentenceTerminal (text.getD i ' ') = false := habove i hlt le_rfl
      rw [scanBackFrom, hterm]
      simp only [Bool.false_eq_true, if_false]
      exact scanBackFrom_eq_some text steps (i - 1) m (by omega) (by omega) (by omega) hm
        (fun j hj1 hj2 => habove j hj1 (by omega))

/-- A successful scan returns an index past the scan's lower bound. -/
theorem scanBackFrom_some_gt (text : List Char) :
    ∀ steps i j, scanBackFrom text i steps = some j → i - steps < j
  | 0, _, _, h => by simp [scanBackFrom] at h
  | steps + 1, i, j, h => by
    rw [scanBackFrom] at h
    split at h
    · cases h; omega
    · have := scanBackFrom_some_gt text steps (i - 1) j h
      omega

/-! ## Supporting lemmas: `strip` -/

theorem dropWhile_idem (p : Char → Bool) (l : List Char) :
    (l.dropWhile p).dropWhile p = l.dropWhile p := by
  induction l with
  | nil => rfl
  | cons a t ih =>
    by_cases h : p a
    · simp [List.dropWhile_cons, h, ih]
    · simp [List.dropWhile_cons, h]

theorem dropWhile_head_false (p : Char → Bool) :
    ∀ l a t, List.dropWhile p l = a :: t → p a = false
  | [], a, t, h => by simp at h
  | b :: l, a, t, h => by
    by_cases hb : p b
    · rw [List.dropWhile_cons, if_pos hb] at h
      exact dropWhile_head_false p l a t h
    · rw [List.dropWhile_cons, if_neg hb] at h
      cases h
      exact Bool.of_not_eq_true hb

/-- Stripping both ends is idempotent: a stripped list strips to itself. -/
theorem stripBy_idem (p : Char → Bool) (l : List Char) :
    stripBy p (stripBy p l) = stripBy p l := by
  set A := l.dropWhile p with hA
  have hBrev : (stripBy p l).reverse = A.reverse.dropWhile p := by
    rw [stripBy, List.reverse_reverse]
  have hBdrop : (stripBy p l).dropWhile p = stripBy p l := by
    cases hB : stripBy p l with
    | nil => rfl
    | cons b t =>
      -- `stripBy p l` is a prefix of `A`, whose head does not satisfy `p`.
      have hsuff : (stripBy p l).reverse <:+ A.reverse := by
        rw [hBrev]; exact List.dropWhile_suffix p
      have hpref : stripBy p l <+: A := by
        have := List.reverse_prefix.mpr hsuff
        simpa using this
      obtain ⟨rest, hrest⟩ := hpref
      rw [hB] at hrest
      have hpb : p b = false :=
        dropWhile_head_false p l b (t ++ rest) (by rw [← hA, ← hrest]; rfl)
      simp [List.dropWhile_cons, hpb]
  rw [stripBy, hBdrop, hBrev, dropWhile_idem, ← hBrev, List.reverse_reverse]

/-- Every chunk the loop emits is stripped and non-empty (lines 540-542:
`chunk = text[start:end].strip()`, appended only `if chunk`). -/
theorem chunkLoop_mem_strip (text : List Char) (cs ov : Nat) :
    ∀ fuel start c, c ∈ chunkLoop text cs ov start fuel → pyStrip c = c ∧ c ≠ []
  | 0, _, _, h => absurd h (List.not_mem_nil _)
  | fuel + 1, start, c, h => by
    rw [chunkLoop] at h
    by_cases hs : start < text.length
    · rw [if_pos hs] at h
      simp only at h
      by_cases hemp : (pyStrip (pySlice text start (windowEnd text cs start))).isEmpty
      · rw [if_pos hemp] at h
        by_cases hstop : text.length ≤ windowEnd text cs start - ov
        · rw [if_pos hstop] at h
          exact absurd h (List.not_mem_nil _)
        · rw [if_neg hstop] at h
          exact chunkLoop_mem_strip text cs ov fuel _ c h
      · rw [if_neg hemp] at h
        rcases List.mem_cons.mp h with rfl | h
        · exact ⟨stripBy_idem pyWhitespace _, fun hnil => hemp (by rw [hnil]; rfl)⟩
        · by_cases hstop : text.length ≤ windowEnd text cs start - ov
          · rw [if_pos hstop] at h
            exact absurd h (List.not_mem_nil _)
          · rw [if_neg hstop] at h
            exact chunkLoop_mem_strip text cs ov fuel _ c h
    · rw [if_neg hs] at h
      exact absurd h (List.not_mem_nil _)

/-! ## Claim C2 — the chunk-end scan (`chunk_text`, lines 530-538) -/

/-- C2 (amended): when a window ends inside the text, the backward scan for
a sentence terminal inspects exactly the indices in
`(max(start + chunk_size/2, start + chunk_size - 100), start + chunk_size]`
— i.e. it is additionally capped at 100 characters before the naive window
end, not only at `chunk_size/2` — takes the nearest (largest) terminal
index `i` in that range and ends the window at `i + 1`, and ends the window
at exactly `start + chunk_size` when the range holds no terminal. -/
theorem C2_window_scan (text : List Char) (chunk_size start : Nat)
    (h : start + chunk_size < text.length) :
    ((∀ j, max (start + chunk_size / 2) (start + chunk_size - 100) < j →
        j ≤ start + chunk_size → sentenceTerminal (text.getD j ' ') = false) →
      windowEnd text chunk_size start = start + chunk_size)
  ∧ (∀ i, max (start + chunk_size / 2) (start + chunk_size - 100) < i →
      i ≤ start + chunk_size → sentenceTerminal (text.getD i ' ') = true →
      (∀ j, i < j → j ≤ start + chunk_size → sentenceTerminal (text.getD j ' ') = false) →
      windowEnd text chunk_size start = i + 1) := by
  have hb : max (start + chunk_size / 2) (start + chunk_size - 100) ≤ start + chunk_size := by
    have := Nat.div_le_self chunk_size 2
    omega
  constructor
  · intro hnone
    have hscan : scanBack text (max (start + chunk_size / 2) (start + chunk_size - 100))
        (start + chunk_size) = none := by
      apply scanBackFrom_eq_none
      · omega
      · intro j hj1 hj2
        exact hnone j (by omega) hj2
    simp only [windowEnd]
    rw [if_pos h, hscan]
  · intro i hi1 hi2 hterm habove
    have hscan : scanBack text (max (start + chunk_size / 2) (start + chunk_size - 100))
        (start + chunk_size) = some (i + 1) := by
      apply scanBackFrom_eq_some
      · omega
      · omega
      · exact hi2
      · exact hterm
      · exact habove
    simp only [windowEnd]
    rw [if_pos h, hscan]

/-- Witness for C2: a five-character text with no terminal, window size 3
starting at 0 — the scan range is empty of terminals and the window ends at
exactly `chunk_size`. -/
theorem C2_window_scan_witness :
    ((∀ j, max (0 + 3 / 2) (0 + 3 - 100) < j → j ≤ 0 + 3 →
        sentenceTerminal ((List.replicate 5 'a').getD j ' ') = false) →
      windowEnd (List.replicate 5 'a') 3 0 = 0 + 3)
  ∧ (∀ i, max (0 + 3 / 2) (0 + 3 - 100) < i → i ≤ 0 + 3 →
      sentenceTerminal ((List.replicate 5 'a').getD i ' ') = true →
      (∀ j, i < j → j ≤ 0 + 3 →
        sentenceTerminal ((List.replicate 5 'a').getD j ' ') = false) →
      windowEnd (List.replicate 5 'a') 3 0 = i + 1) :=
  C2_window_scan (List.replicate 5 'a') 3 0 (by decide)

/-- The input refuting C2 as stated: 1001 characters whose only sentence
terminal sits at index 600 — inside the claimed scan range
`(chunk_size/2, chunk_size] = (500, 1000]` but more than 100 characters
before the naive window end. -/
def c2text : List Char :=
  List.replicate 600 'a' ++ '.' :: List.replicate 400 'b'

set_option maxRecDepth 100000 in
/-- C2 counterexample: the claim says the first chunk must end just past
the terminal at index 600 (i.e. equal `c2text[0:601]` stripped, 601
characters); the code's first chunk is the full 1000-character window,
because the scan never reaches further back than `end - 100 = 900`. -/
theorem C2_counterexample :
    c2text.length = 1001
  ∧ sentenceTerminal (c2text.getD 600 ' ') = true
  ∧ 1000 / 2 < 600
  ∧ (c2text.drop 601).all (fun c => !sentenceTerminal c) = true
  ∧ (chunk_text c2text 1000 200).head? =
      some (List.replicate 600 'a' ++ '.' :: List.replicate 399 'b')
  ∧ (chunk_text c2text 1000 200).head? ≠ some (pyStrip (c2text.take 601)) := by
  exact ⟨by decide, by decide, by decide, by decide, by decide, by decide⟩

/-! ## Claim C6 — chunk sizes, trimming, dropping -/

/-- C6 (amended): for texts longer than the default `chunk_size = 1000`
every returned chunk is whitespace-trimmed and non-empty, and every window
that ends inside the text spans more than `chunk_size/2` characters *before
trimming*; trimming may leave a returned non-final chunk shorter than
`chunk_size/2` (see the counterexample).  A text of length at most
`chunk_size` is returned verbatim as the single chunk, untrimmed. -/
theorem C6_trimmed_chunks (text : List Char) :
    (1000 < text.length → ∀ c ∈ chunk_text text 1000 200, pyStrip c = c ∧ c ≠ [])
  ∧ (∀ start, start + 1000 < text.length → start + 500 < windowEnd text 1000 start)
  ∧ (text.length ≤ 1000 → chunk_text text 1000 200 = [text]) := by
  refine ⟨?_, ?_, ?_⟩
  · intro hlen c hc
    rw [chunk_text, if_neg (by omega)] at hc
    exact chunkLoop_mem_strip text 1000 200 _ 0 c hc
  · intro start hlt
    simp only [windowEnd]
    rw [if_pos hlt]
    cases hscan : scanBack text (max (start + 1000 / 2) (start + 1000 - 100)) (start + 1000) with
    | none =>
      show start + 500 < start + 1000
      omega
    | some j =>
      have := scanBackFrom_some_gt text _ _ _ hscan
      show start + 500 < j
      omega
  · intro hle
    rw [chunk_text, if_pos hle]

/-- The input refuting C6's size bound: 100 letters, 900 spaces, 500
letters.  The first window is the full `[0, 1000)` range (no terminals),
but `.strip()` cuts it to the 100 leading letters — a non-final chunk far
shorter than `chunk_size/2 = 500` although 1500 characters remained.  The
trailing conjuncts refute "chunks are whitespace-trimmed" for short inputs:
a text no longer than `chunk_size` is returned whole, untrimmed. -/
def c6text : List Char :=
  List.replicate 100 'a' ++ List.replicate 900 ' ' ++ List.replicate 500 'b'

set_option maxRecDepth 100000 in
/-- C6 counterexample: the first of the two returned chunks has 100
characters (< 500) and is not the last chunk, while the text remaining at
its window start was all 1500 characters; and a 3-space input is returned
as one untrimmed, all-whitespace chunk. -/
theorem C6_counterexample :
    chunk_text c6text 1000 200 = [List.replicate 100 'a', List.replicate 500 'b']
  ∧ c6text.length = 1500
  ∧ (List.replicate 100 'a').length < 1000 / 2
  ∧ chunk_text [' ', ' ', ' '] 1000 200 = [[' ', ' ', ' ']]
  ∧ pyStrip [' ', ' ', ' '] = [] := by
  exact ⟨by decide, by decide, by decide, by decide, by decide⟩

/-! ## Claim C4 — keyword routing -/

/-- `containsSub` decides contiguous-substring membership. -/
theorem containsSub_iff (kw : List Char) :
    ∀ l, containsSub l kw = true ↔ kw <:+: l := by
  intro l
  induction l with
  | nil =>
    rw [containsSub]
    simp [List.isPrefixOf_iff_prefix]
  | cons a t ih =>
    rw [containsSub]
    simp only [Bool.or_eq_true, List.isPrefixOf_iff_prefix, ih, List.infix_cons_iff]

/-- `contains_any` decides "some keyword occurs in the lowered text". -/
theorem contains_any_iff (kws : List String) (l : List Char) :
    contains_any kws l = true ↔ ∃ kw ∈ kws, kw.toList <:+: l := by
  simp [contains_any, List.any_eq_true, containsSub_iff]

/-- C4: routing is deterministic and keyword-based, exactly as claimed —
draft + outline-keyword goes to `generate_outline`, outline +
details-keyword goes to `generate_details`, and everything else (any other
status, or no matching keyword) goes to `general_chat`; the implementation
agrees with the spec's routing rule on every input. -/
theorem C4_routing (status : String) (u : String) :
    (status = "draft" → (∃ kw ∈ outline_keywords, kw.toList <:+: lowerChars u) →
      analyze_request u status = "generate_outline")
  ∧ (status = "outline" → (∃ kw ∈ details_keywords, kw.toList <:+: lowerChars u) →
      analyze_request u status = "generate_details")
  ∧ ((status = "draft" → ¬ ∃ kw ∈ outline_keywords, kw.toList <:+: lowerChars u) →
     (status = "outline" → ¬ ∃ kw ∈ details_keywords, kw.toList <:+: lowerChars u) →
      analyze_request u status = "general_chat")
  ∧ analyze_request u status = routing_rule_spec status u := by
  refine ⟨?_, ?_, ?_, rfl⟩
  · rintro rfl hkw
    rw [analyze_request]
    simp [(contains_any_iff _ _).mpr hkw]
  · rintro rfl hkw
    rw [analyze_request]
    simp [(contains_any_iff _ _).mpr hkw]
  · intro hdraft houtline
    rw [analyze_request]
    by_cases hd : status = "draft"
    · have : contains_any outline_keywords (lowerChars u) = false := by
        rw [← Bool.not_eq_true, contains_any_iff]
        exact hdraft hd
      simp [hd, this]
    · by_cases ho : status = "outline"
      · have : contains_any details_keywords (lowerChars u) = false := by
          rw [← Bool.not_eq_true, contains_any_iff]
          exact houtline ho
        simp [ho, this, hd]
      · simp [hd, ho]

/-! ## Claims C5 / C10 — outline generation -/

/-- The three handler strings `analyze_request` can return. -/
theorem analyze_request_cases (u s : String) :
    analyze_request u s = "generate_outline" ∨ analyze_request u s = "generate_details" ∨
      analyze_request u s = "general_chat" := by
  rw [analyze_request]
  split_ifs <;> simp

/-- `generate_details_node` never writes the `outline` field. -/
theorem generate_details_node_outline (cfg : AgentConfig) (st : WorkflowState) :
    (generate_details_node cfg st).outline = st.outline := by
  rw [generate_details_node]
  split_ifs
  · rfl
  · cases cfg.geminiKey with
    | none => rfl
    | some _ =>
      simp only
      cases runDetailLoop cfg.llmDetail (st.outline.getD []) <;> rfl

/-- `general_chat_node` never writes the `outline` field. -/
theorem general_chat_node_outline (cfg : AgentConfig) (st : WorkflowState) :
    (general_chat_node cfg st).outline = st.outline := by
  rw [general_chat_node]
  cases cfg.geminiKey with
  | none => rfl
  | some _ =>
    simp only
    cases cfg.llmChat <;> rfl

/-- The `outline` field after `generate_outline_node`: at most 8 parsed
points, the untouched input value (an invocation error), or the default. -/
theorem generate_outline_node_outline (cfg : AgentConfig) (st : WorkflowState) :
    (∃ content, cfg.llmOutline = Except.ok content ∧
        (generate_outline_node cfg st).outline = some ((parse_outline content).take 8))
  ∨ (generate_outline_node cfg st).outline = st.outline
  ∨ (generate_outline_node cfg st).outline = some default_outline := by
  rw [generate_outline_node]
  cases cfg.geminiKey with
  | none => right; right; rfl
  | some _ =>
    simp only
    cases h : cfg.llmOutline with
    | ok content => exact Or.inl ⟨content, rfl, rfl⟩
    | error e => right; left; rfl

/-- `route_request` only writes `current_step`. -/
theorem route_request_outline (st : WorkflowState) :
    (route_request st).outline = st.outline := rfl

/-- On a state with no outline, one workflow pass leaves the outline empty
(`None`), sets at most 8 parsed points, or sets the default outline. -/
theorem workflow_invoke_outline_none (cfg : AgentConfig) (st : WorkflowState)
    (h : st.outline = none) :
    (workflow_invoke cfg st).outline = none
  ∨ (∃ content, cfg.llmOutline = Except.ok content ∧
      (workflow_invoke cfg st).outline = some ((parse_outline content).take 8))
  ∨ (workflow_invoke cfg st).outline = some default_outline := by
  rw [workflow_invoke]
  split_ifs
  · rcases generate_outline_node_outline cfg (route_request st) with ⟨content, hc, h2⟩ | h2 | h2
    · exact Or.inr (Or.inl ⟨content, hc, h2⟩)
    · rw [h2, route_request_outline, h]
      exact Or.inl rfl
    · exact Or.inr (Or.inr h2)
  · rw [generate_details_node_outline, route_request_outline, h]
    exact Or.inl rfl
  · rw [general_chat_node_outline, route_request_outline, h]
    exact Or.inl rfl

/-- C5: `generate_lesson_outline` never yields a list of more than 8
entries; `generate_outline_node` without a configured model yields exactly
the fixed default outline (with its documented response text); and that
default is the documented 8-entry list in documented order. -/
theorem C5_outline_bound :
    (∀ cfg lesson ctx o, generate_lesson_outline cfg lesson ctx = some o → o.length ≤ 8)
  ∧ (∀ cfg st, cfg.geminiKey = none →
      (generate_outline_node cfg st).outline = some default_outline
      ∧ (generate_outline_node cfg st).response =
          "I've created a standard lesson plan outline. Please configure your API keys for AI-generated content.")
  ∧ default_outline =
      ["Learning Objectives", "Materials and Resources", "Introduction and Warm-up",
       "Main Teaching Activity", "Practice and Application", "Assessment and Evaluation",
       "Conclusion and Wrap-up", "Extension Activities"] := by
  refine ⟨?_, ?_, rfl⟩
  · intro cfg lesson ctx o h
    simp only [generate_lesson_outline] at h
    rcases workflow_invoke_outline_none cfg
        { lesson_plan_data := lesson, context_docs := ctx, current_step := "generate_outline",
          outline := none, details := none, user_request := "create outline", response := "" }
        rfl with h2 | ⟨content, _, h2⟩ | h2 <;>
      rw [h2] at h
    · simp at h
    · injection h with h3
      subst h3
      exact List.length_take_le 8 _
    · injection h with h3
      subst h3
      decide
  · intro cfg st hk
    rw [generate_outline_node, hk]
    exact ⟨rfl, rfl⟩

/-- C10: with a model configured (`gemini` key present) whose outline
invocation raises, `generate_lesson_outline` on a draft plan returns `none`
— the Python caller receives `None` where `List[str]` is declared, because
the node leaves the state's `outline` at its initial `None` and
`result.get("outline", [])` finds the key present with value `None`. -/
theorem C10_outline_error_returns_none (k e : String)
    (llmD : String → Except String String) (llmC : Except String String)
    (lesson : LessonPlanRec) (ctx : List String) (h : lesson.status = "draft") :
    generate_lesson_outline ⟨some k, Except.error e, llmD, llmC⟩ lesson ctx = none := by
  have ha : analyze_request "create outline" lesson.status = "generate_outline" := by
    rw [h]; decide
  simp only [generate_lesson_outline, workflow_invoke, route_request, route_to_handler, ha]
  rfl

/-- Witness for C10 at a concrete draft plan and a raising model. -/
theorem C10_outline_error_returns_none_witness :
    generate_lesson_outline
      ⟨some "gm", Except.error "boom", fun _ => Except.ok "", Except.ok ""⟩
      ⟨1, 2, "Fractions", "Math", "8-10", "", "draft", none, none⟩ [] = none :=
  C10_outline_error_returns_none "gm" "boom" (fun _ => Except.ok "") (Except.ok "")
    ⟨1, 2, "Fractions", "Math", "8-10", "", "draft", none, none⟩ [] rfl

/-! ## Claim C7 — the no-outline guard of detail generation -/

/-- C7: with an empty (or absent) outline, `generate_details_node` changes
nothing but the response, which is its guidance text; and through the chat
endpoint (`status="outline"`, a details keyword, an empty stored outline)
`send_message` mutates no lesson plan, reports `lesson_plan_updated=false`,
`status_changed=false`, `new_status=None`, and answers with the endpoint's
guidance message. -/
theorem C7_no_outline_guard :
    (∀ cfg st, st.outline = none ∨ st.outline = some [] →
      (generate_details_node cfg st).details = st.details
      ∧ (generate_details_node cfg st).outline = st.outline
      ∧ (generate_details_node cfg st).lesson_plan_data = st.lesson_plan_data
      ∧ (generate_details_node cfg st).response =
          "I need to create an outline first before generating detailed content.")
  ∧ (∀ env db u req lesson_plan g,
      (db.lesson_plans.find? fun p => p.id == req.lesson_plan_id && p.user_id == u) =
          some lesson_plan →
      (user_api_keys db u).lookup "gemini" = some g →
      lesson_plan.status = "outline" →
      lesson_plan.outline.getD [] = [] →
      contains_any details_keywords (lowerChars req.message) = true →
      ∃ db', send_message env db u req =
          Except.ok (⟨no_outline_guidance, false, false, none⟩, db')
        ∧ db'.lesson_plans = db.lesson_plans
        ∧ db'.embeddings = db.embeddings
        ∧ db'.messages = db.messages ++
            [⟨req.lesson_plan_id, req.message, "user"⟩,
             ⟨req.lesson_plan_id, no_outline_guidance, "ai"⟩]) := by
  constructor
  · intro cfg st h
    have hempty : (st.outline.getD []).isEmpty = true := by
      rcases h with h | h <;> rw [h] <;> rfl
    rw [generate_details_node]
    rw [if_pos hempty]
    exact ⟨rfl, rfl, rfl, rfl⟩
  · intro env db u req lesson_plan g hfind hg hstatus houtl hkw
    refine ⟨{ db with messages :=
        (db.messages ++ [⟨req.lesson_plan_id, req.message, "user"⟩]) ++
          [⟨req.lesson_plan_id, no_outline_guidance, "ai"⟩] }, ?_, rfl, rfl, by simp⟩
    simp only [send_message, hfind, hg, hstatus, houtl, hkw]
    simp

/-! ## Claim C9 — fallbacks and the missing-credentials rejection -/

/-- C9 (amended): each generation node does return its documented
deterministic fallback when no model is configured (default outline,
per-section placeholder text, fixed instructional chat message) — but those
fallbacks are unreachable through the chat endpoint, because `send_message`
raises an HTTP 400 ("configure your API keys") whenever the user record has
no `gemini` key: a missing model *is* surfaced to the end user as a raised
failure at the endpoint. -/
theorem C9_fallbacks :
    (∀ cfg st, cfg.geminiKey = none →
      (generate_outline_node cfg st).response =
        "I've created a standard lesson plan outline. Please configure your API keys for AI-generated content.")
  ∧ (∀ cfg st, cfg.geminiKey = none → (st.outline.getD []).isEmpty = false →
      (generate_details_node cfg st).response = details_success_text
      ∧ (generate_details_node cfg st).details =
          some ((st.outline.getD []).map fun s => (s, details_fallback_text s)))
  ∧ (∀ cfg st, cfg.geminiKey = none →
      (general_chat_node cfg st).response =
        "I'd be happy to help you with your lesson plan! Please configure your AI API keys in your profile to enable full AI assistance.")
  ∧ (∀ env db u req lesson_plan,
      (db.lesson_plans.find? fun p => p.id == req.lesson_plan_id && p.user_id == u) =
          some lesson_plan →
      (user_api_keys db u).lookup "gemini" = none →
      send_message env db u req =
        Except.error "Please configure your AI API keys in your profile before using the chat feature") := by
  refine ⟨?_, ?_, ?_, ?_⟩
  · intro cfg st hk
    rw [generate_outline_node, hk]
  · intro cfg st hk hne
    rw [generate_details_node, if_neg (by simp [hne]), hk]
    exact ⟨rfl, rfl⟩
  · intro cfg st hk
    rw [general_chat_node, hk]
  · intro env db u req lesson_plan hfind hg
    simp only [send_message, hfind, hg]

/-- The database refuting C9 as stated: a draft plan owned by user 10 who
has an OpenAI key but no Gemini key. -/
def c9db : Db :=
  { lesson_plans := [⟨1, 10, "Fractions", "Math", "8-10", "", "draft", none, none⟩],
    users := [⟨10, [("openai", "sk-test")]⟩],
    embeddings := [], messages := [], files := [] }

/-- The external-service stub used by the concrete chat scenarios. -/
def stubEnv : ChatEnv :=
  { embedService := fun _ => [], llmOutline := Except.ok "",
    llmDetail := fun _ => Except.ok "", llmChat := Except.ok "" }

/-- C9 counterexample: with no language-model credentials the end user's
`send_message` call does not receive fallback text — it raises (HTTP 400),
surfacing the missing model as a failure. -/
theorem C9_counterexample :
    send_message stubEnv c9db 10 ⟨"create an outline", 1⟩ =
      Except.error "Please configure your AI API keys in your profile before using the chat feature" := rfl

/-! ## Claim C1 — the endpoint never retrieves the persisted chunks -/

/-- A database holding a draft plan, a fully-keyed user, and a persisted
embedded chunk scoped to that plan — the claim's "ingested file" state. -/
def c1db : Db :=
  { lesson_plans := [⟨1, 10, "Fractions", "Math", "8-10", "", "draft", none, none⟩],
    users := [⟨10, [("openai", "sk-test"), ("gemini", "gm-test")]⟩],
    embeddings := [⟨5, some 1, "persisted chunk for lesson plan 1", [1, 0], 0⟩],
    messages := [], files := [] }

/-- C1: the context `send_message` hands to generation is always the empty
list — `chat.py` lines 55-59 call `get_relevant_context` without the
`openai_api_key` argument, so retrieval returns `[]` before consulting the
embeddings collection; in particular it is `[]` even for a database holding
persisted chunks scoped to the requested plan, contradicting the claimed
retrieval of those chunks. -/
theorem C1_context_never_retrieved :
    (∀ embedService req db, chat_retrieved_context embedService req db = [])
  ∧ chat_retrieved_context (fun _ => [1, 0]) ⟨"create an outline", 1⟩ c1db = []
  ∧ c1db.embeddings ≠ [] :=
  ⟨fun _ _ _ => rfl, rfl, by simp [c1db]⟩

/-! ## Claim C8 — ingestion of a file with empty extracted text -/

/-- C8 (amended): on empty extracted text `process_uploaded_file` returns
immediately — no embedding documents are inserted, the file is *not* marked
processed, nothing in the database changes, and the function returns `None`
(it has no return value on any path), not a numeric chunk count. -/
theorem C8_empty_ingest (file_id : Nat) (lesson_plan_id : Option Nat)
    (embedBatch : List String → List (List ℝ)) (openai_api_key : Option String) (db : Db) :
    process_uploaded_file file_id lesson_plan_id "" embedBatch openai_api_key db = (db, none) :=
  rfl

/-- A one-file database for the concrete ingestion run. -/
def c8db : Db :=
  { lesson_plans := [], users := [], embeddings := [], messages := [],
    files := [⟨7, false⟩] }

/-- C8 counterexample: at a concrete empty-text ingestion the function
returns `None` — not the chunk count `0` the claim asserts — and issues no
writes at all (the stored file in particular keeps `processed = false`). -/
theorem C8_counterexample :
    (process_uploaded_file 7 (some 3) "" (fun _ => []) (some "sk-test") c8db).2 = none
  ∧ (process_uploaded_file 7 (some 3) "" (fun _ => []) (some "sk-test") c8db).2 ≠ some 0
  ∧ (process_uploaded_file 7 (some 3) "" (fun _ => []) (some "sk-test") c8db).1 = c8db
  ∧ c8db.files = [⟨7, false⟩] :=
  ⟨rfl, fun h => Option.noConfusion h, rfl, rfl⟩

/-! ## Claim C3 — similarity ranking of retrieval -/

/-- A zero vector has cosine similarity `0.0` against anything (lines
560-561: a zero norm short-circuits to `0.0`). -/
theorem cosine_similarity_zero (q v : List ℝ) (hv : ∀ x ∈ v, x = 0) :
    cosine_similarity q v = 0 := by
  have hs : sumSq v = 0 := by
    rw [sumSq]
    apply List.sum_eq_zero
    intro y hy
    obtain ⟨x, hx, rfl⟩ := List.mem_map.mp hy
    rw [hv x hx, mul_zero]
  simp [cosine_similarity, hs, Real.sqrt_zero]

/-- C3: for a fixed query vector and candidate set, retrieval returns at
most `limit` chunk texts, every returned text comes from a chunk whose
`lesson_plan_id` equals the requested scope, the selected `(similarity,
text)` prefix is ordered by non-increasing similarity, a zero-vector
candidate scores exactly `0.0`, and no `0.0`-scored entry precedes a
positively-scored one. -/
theorem C3_retrieval_ranking (k : String) (embedService : String → List ℝ)
    (scope : Nat) (query : String) (docs : List EmbeddingDoc) (limit : Nat) :
    (get_relevant_context (some k) embedService scope query docs limit).length ≤ limit
  ∧ (∀ t ∈ get_relevant_context (some k) embedService scope query docs limit,
      ∃ d ∈ docs, d.lesson_plan_id = some scope ∧ d.chunk_text = t)
  ∧ ((retrieve_sims (embedService query) scope docs).take limit).Pairwise
      (fun x y => y.1 ≤ x.1)
  ∧ (∀ v, (∀ x ∈ v, x = (0:ℝ)) → cosine_similarity (embedService query) v = 0)
  ∧ ((retrieve_sims (embedService query) scope docs).take limit).Pairwise
      (fun x y => x.1 = 0 → ¬ (0:ℝ) < y.1) := by
  have h1 : (retrieve_sims (embedService query) scope docs).Pairwise pairGE :=
    List.sorted_insertionSort pairGE _
  have hsorted : ((retrieve_sims (embedService query) scope docs).take limit).Pairwise
      (fun x y => y.1 ≤ x.1) :=
    (h1.sublist (List.take_sublist limit _)).imp
      (fun h => h.elim le_of_lt (fun hh => le_of_eq hh.1.symm))
  refine ⟨?_, ?_, hsorted, fun v hv => cosine_similarity_zero _ v hv, ?_⟩
  · simp only [get_relevant_context]
    split
    · simp
    · rw [List.length_map]
      exact List.length_take_le limit _
  · intro t ht
    simp only [get_relevant_context] at ht
    split at ht
    · exact absurd ht (List.not_mem_nil t)
    · obtain ⟨p, hp, rfl⟩ := List.mem_map.mp ht
      have hp2 : p ∈ retrieve_sims (embedService query) scope docs :=
        List.mem_of_mem_take hp
      rw [retrieve_sims] at hp2
      have hp3 := (List.perm_insertionSort pairGE _).mem_iff.mp hp2
      obtain ⟨d, hd, hdp⟩ := List.mem_map.mp hp3
      obtain ⟨hd1, hd2⟩ := List.mem_filter.mp hd
      exact ⟨d, hd1, by simpa using hd2, by rw [← hdp]⟩
  · exact hsorted.imp fun h hx0 h0y => by
      have hpos : (0:ℝ) < _ := lt_of_lt_of_le h0y h
      rw [hx0] at hpos
      exact lt_irrefl 0 hpos
